/-
  Verification of the batch-job lifecycle core of the image-generation
  repository (src/services/batch/batch_service.py, src/models/models.py,
  src/services/bot/handlers/publish.py).

  The Python code is shallowly embedded: ORM rows become Lean structures,
  the SQLAlchemy session becomes explicit lists of rows threaded through
  the functions, and the remote provider / asset store become oracle
  records supplied as arguments.  Python truthiness on optional strings
  (`if result_file:` is false for both None and "") is modelled by
  `strTruthy`.  Raw image bytes, base64 decoding, filename slugification
  and JSON parsing are abstracted: bytes are carried as the base64 `data`
  string itself and result files arrive pre-split into lines, since no
  claim below depends on the byte content or on the JSON surface syntax.
-/
import Mathlib

namespace ImageGen

/-- Python truthiness of an optional string: `None` and `""` are falsy. -/
def strTruthy : Option String → Bool
  | none => false
  | some s => !(s == "")

/-- `models.models.BatchJob` (table `batch_jobs`).  Timestamps are
abstract `Nat` ticks; `created_at` is kept for completeness. -/
structure BatchJob where
  id : String
  job_name : String
  source_image_names : List String
  jsonl_file_name : String
  original_image_paths : List String
  model : String
  created_at : Nat := 0
  status : String := "PENDING"
  completed_at : Option Nat := none
  result_file : Option String := none
  error_message : Option String := none
  deriving Repr, DecidableEq

/-- `models.models.BatchJobImage` (table `batch_job_images`). -/
structure BatchJobImage where
  id : String
  batch_job_id : String
  request_key : String
  source_image_name : String := ""
  original_image_path : String := ""
  source_url : Option String := none
  model_name : String := ""
  order_number : String := ""
  position : Int := 0
  page_url : String := ""
  status : String := "PENDING"
  result_file : Option String := none
  error_message : Option String := none
  alt : Option String := none
  title : Option String := none
  description : Option String := none
  image_cms_id : Option String := none
  published : Bool := false
  prompt : Option String := none
  deriving Repr, DecidableEq

/-- `google.genai.types.JobState`: the provider's state enum.  The member
names (`JOB_STATE_*`) are attested inside the source itself by the
`JOB_STATES` dict of batch_service.py and by the
`str(job.state).split(".")[-1]` handling in `_download_batch_results`. -/
inductive JobState where
  | JOB_STATE_UNSPECIFIED
  | JOB_STATE_PENDING
  | JOB_STATE_RUNNING
  | JOB_STATE_SUCCEEDED
  | JOB_STATE_FAILED
  | JOB_STATE_CANCELLED
  | JOB_STATE_PAUSED
  deriving Repr, DecidableEq

/-- Python `Enum.name` of a `JobState` member. -/
def JobState.enumName : JobState → String
  | .JOB_STATE_UNSPECIFIED => "JOB_STATE_UNSPECIFIED"
  | .JOB_STATE_PENDING => "JOB_STATE_PENDING"
  | .JOB_STATE_RUNNING => "JOB_STATE_RUNNING"
  | .JOB_STATE_SUCCEEDED => "JOB_STATE_SUCCEEDED"
  | .JOB_STATE_FAILED => "JOB_STATE_FAILED"
  | .JOB_STATE_CANCELLED => "JOB_STATE_CANCELLED"
  | .JOB_STATE_PAUSED => "JOB_STATE_PAUSED"

/-- Python `str()` of a `JobState` member: `"JobState.<name>"`. -/
def JobState.toStr (s : JobState) : String := "JobState." ++ s.enumName

/-- `state = str(job.state); if "." in state: state = state.split(".")[-1]`
(batch_service.py lines 319-321): the characters after the last dot.
When the string has no dot, `split(".")` yields the one-element list
holding the whole string, so taking the last component is also the
identity there, matching the guarded Python form. -/
def lastDotComponent (s : String) : String :=
  String.mk (s.toList.foldl (fun acc c => if c = '.' then [] else acc ++ [c]) [])

/-- SQLAlchemy `.filter(job_name == n).first()` over the jobs table:
the first row matching the name. -/
def findJobByName (jobs : List BatchJob) (n : String) : Option BatchJob :=
  jobs.find? (fun j => j.job_name == n)

/-- Write a mutated job row back: rows are identified by primary key. -/
def setJob (jobs : List BatchJob) (j : BatchJob) : List BatchJob :=
  jobs.map (fun k => if k.id == j.id then j else k)

/-- SQLAlchemy `.filter(request_key == k).first()` over the items table. -/
def findItemByKey (items : List BatchJobImage) (k : String) : Option BatchJobImage :=
  items.find? (fun i => i.request_key == k)

/-- Write a mutated item row back by primary key. -/
def setItem (items : List BatchJobImage) (i : BatchJobImage) : List BatchJobImage :=
  items.map (fun k => if k.id == i.id then i else k)

/-- `images_by_key = {img.request_key: img for img in images}` followed by
`.get(key)`: dict comprehension keeps the LAST row per key. -/
def dictGetByKey (items : List BatchJobImage) (k : String) : Option BatchJobImage :=
  (items.filter (fun i => i.request_key == k)).getLast?

/-- `BatchService.check_job_status` (batch_service.py lines 230-249).
Arguments: the jobs table, the polled `job_name`, the provider's reported
state (`job_info.state`, `none` when falsy) and the current clock.
Returns the updated jobs table and the string the method returns. -/
def check_job_status (jobs : List BatchJob) (job_name : String)
    (state : Option JobState) (now : Nat) : List BatchJob × String :=
  let jobs' :=
    match findJobByName jobs job_name, state with
    | some bj, some st =>
        let bj := { bj with status := st.enumName }
        let bj :=
          if st.enumName ∈ ["SUCCEEDED", "FAILED", "CANCELLED"] then
            { bj with completed_at := some now }
          else bj
        setJob jobs bj
    | _, _ => jobs
  (jobs', match state with | some st => st.enumName | none => "UNKNOWN")

/-- `BatchService.update_image_result` (batch_service.py lines 260-280). -/
def update_image_result (items : List BatchJobImage) (request_key : String)
    (result_file : Option String := none) (error_message : Option String := none) :
    List BatchJobImage :=
  match findItemByKey items request_key with
  | none => items
  | some image =>
      let image :=
        if strTruthy result_file then
          { image with result_file := result_file, status := "SUCCEEDED" }
        else image
      let image :=
        if strTruthy error_message then
          { image with error_message := error_message, status := "FAILED" }
        else image
      setItem items image

/-! ## Result reconciliation (`_download_batch_results` and helpers)

The asset store (`GoogleDriveService`) is an oracle: `upload_file` takes
the base64 payload string (standing in for the decoded bytes) and the
derived output filename and returns the store handle (`None` on failure,
exactly the Python return type).  `get_output_filename` involves a fresh
random uuid on every call, so filename derivation is passed in as an
oracle function `fname` of the item row. -/

/-- The asset-store collaborator, as consumed by reconciliation. -/
structure DriveService where
  upload_file : String → String → Option String

/-- One `part` of an inline response: `some data` when `part.inline_data`
is truthy, carrying `part.inline_data.data`. -/
structure InlinePart where
  inline_data : Option String := none
  deriving Repr, DecidableEq

/-- One `candidate` of an inline response: `some parts` when
`candidate.content` is truthy, carrying `candidate.content.parts`. -/
structure InlineCandidate where
  content : Option (List InlinePart) := none
  deriving Repr, DecidableEq

/-- One entry of `dest.inlined_responses`.  `response` is `some cs` when
both `response.response` and its `.candidates` are truthy (the code only
ever reads the candidates, so the two falsy cases collapse); `error` is
`some msg` when `response.error` is truthy, carrying `str(response.error)`. -/
structure InlineResponse where
  key : Option String := none
  response : Option (List InlineCandidate) := none
  error : Option String := none
  deriving Repr, DecidableEq

/-- The `result` dict built by `_download_batch_results` (logging-only
fields such as `state_ru` omitted). -/
structure ReconResult where
  job_name : String := ""
  state : String := ""
  completed : Bool := false
  success : Bool := false
  output_files : List (String × String) := []
  errors : List (String × String) := []
  error : Option String := none
  deriving Repr, DecidableEq

/-- Look up the current value of a row by primary key. -/
def findItemById (items : List BatchJobImage) (i : String) : Option BatchJobImage :=
  items.find? (fun x => x.id == i)

/-- Mark the row identified by `recId?` FAILED with `msg`, as the shared
`image_record.error_message = ...; image_record.status = "FAILED"` writes
do (a no-op when the request key matched no row). -/
def markItemFailed (items : List BatchJobImage) (recId? : Option String)
    (msg : String) : List BatchJobImage :=
  match recId? with
  | none => items
  | some rid =>
      match findItemById items rid with
      | none => items
      | some rec => setItem items { rec with error_message := some msg, status := "FAILED" }

/-- The innermost part handler of `_process_inline_responses`
(batch_service.py lines 433-473): a part carrying truthy `inline_data`,
with a matched item, is decoded, pushed to the store, and the item marked
SUCCEEDED with the handle or FAILED with the store-error message. -/
def inlineHandlePart (drive : DriveService) (fname : BatchJobImage → String)
    (key : String) (recId? : Option String)
    (st : List BatchJobImage × ReconResult) (p : InlinePart) :
    List BatchJobImage × ReconResult :=
  match p.inline_data with
  | none => st
  | some data =>
      match recId? with
      | none => st
      | some rid =>
          match findItemById st.1 rid with
          | none => st
          | some rec =>
              let file_id := drive.upload_file data (fname rec)
              if strTruthy file_id then
                (setItem st.1 { rec with result_file := file_id, status := "SUCCEEDED" },
                 { st.2 with output_files := st.2.output_files ++ [(key, file_id.getD "")] })
              else
                (setItem st.1 { rec with
                    error_message := some "Ошибка загрузки в Google Drive",
                    status := "FAILED" },
                 { st.2 with errors := st.2.errors ++ [(key, "Ошибка загрузки в Google Drive")] })

/-- One iteration of the `for response in inlined_responses` loop
(batch_service.py lines 420-483).  `keyedItems` is the snapshot the
`images_by_key` dict was built from. -/
def inlineHandleResponse (drive : DriveService) (fname : BatchJobImage → String)
    (keyedItems : List BatchJobImage)
    (st : List BatchJobImage × ReconResult) (r : InlineResponse) :
    List BatchJobImage × ReconResult :=
  if !(strTruthy r.key) then st
  else
    let key := r.key.getD ""
    let recId? := (dictGetByKey keyedItems key).map (fun i => i.id)
    let st :=
      match r.response with
      | none => st
      | some candidates =>
          candidates.foldl (fun st c =>
            match c.content with
            | none => st
            | some parts => parts.foldl (inlineHandlePart drive fname key recId?) st) st
    match r.error with
    | none => st
    | some emsg =>
        (markItemFailed st.1 recId? emsg,
         { st.2 with errors := st.2.errors ++ [(key, emsg)] })

/-- `BatchService._process_inline_responses` (batch_service.py 411-485). -/
def process_inline_responses (drive : DriveService) (fname : BatchJobImage → String)
    (inlined_responses : List InlineResponse) (keyedItems : List BatchJobImage)
    (items : List BatchJobImage) (result : ReconResult) :
    List BatchJobImage × ReconResult :=
  inlined_responses.foldl (inlineHandleResponse drive fname keyedItems) (items, result)

/-- One `part` of a parsed result-file line: `some data` when the part has
an `inline_data`/`inlineData` key with a truthy value, carrying its
`data` field. -/
structure FilePart where
  inline_data : Option String := none
  deriving Repr, DecidableEq

/-- One `candidate` of a parsed line: `some ps` when the candidate has a
`content` key that has a `parts` key. -/
structure FileCandidate where
  parts : Option (List FilePart) := none
  deriving Repr, DecidableEq

/-- One parsed JSON line of the downloaded result file.  `candidates` is
`some cs` when the line has a `response` key whose value has a
`candidates` key; `error` is `some (str v)` exactly when the line has an
`error` key (the code tests `"error" in response_data`, not truthiness). -/
structure FileLine where
  key : Option String := none
  candidates : Option (List FileCandidate) := none
  error : Option String := none
  deriving Repr, DecidableEq

/-- Image-part scanning of one result-file line (batch_service.py
515-568): returns the updated state and the `has_image` flag, which is
set only by a successful store push. -/
def fileScanParts (drive : DriveService) (fname : BatchJobImage → String)
    (key : String) (recId? : Option String)
    (st : List BatchJobImage × ReconResult) (cs : List FileCandidate) :
    (List BatchJobImage × ReconResult) × Bool :=
  cs.foldl (fun acc c =>
    match c.parts with
    | none => acc
    | some ps =>
        ps.foldl (fun acc p =>
          match p.inline_data with
          | none => acc
          | some data =>
              match recId? with
              | none => acc
              | some rid =>
                  match findItemById acc.1.1 rid with
                  | none => acc
                  | some rec =>
                      let file_id := drive.upload_file data (fname rec)
                      if strTruthy file_id then
                        ((setItem acc.1.1 { rec with result_file := file_id, status := "SUCCEEDED" },
                          { acc.1.2 with output_files :=
                              acc.1.2.output_files ++ [(key, file_id.getD "")] }),
                         true)
                      else
                        ((setItem acc.1.1 { rec with
                            error_message := some "Ошибка загрузки в Google Drive",
                            status := "FAILED" },
                          { acc.1.2 with errors :=
                              acc.1.2.errors ++ [(key, "Ошибка загрузки в Google Drive")] }),
                         acc.2)) acc) (st, false)

/-- One iteration of the per-line loop of `_download_and_process_file`
(batch_service.py lines 501-589). -/
def fileHandleLine (drive : DriveService) (fname : BatchJobImage → String)
    (keyedItems : List BatchJobImage)
    (st : List BatchJobImage × ReconResult) (line : FileLine) :
    List BatchJobImage × ReconResult :=
  if !(strTruthy line.key) then st
  else
    let key := line.key.getD ""
    let recId? := (dictGetByKey keyedItems key).map (fun i => i.id)
    let scanned :=
      match line.candidates with
      | none => (st, false)
      | some cs => fileScanParts drive fname key recId? st cs
    let st := scanned.1
    let has_image := scanned.2
    let st :=
      if !has_image && line.error == none then
        (markItemFailed st.1 recId? "Изображение не сгенерировано",
         { st.2 with errors := st.2.errors ++ [(key, "Изображение не сгенерировано")] })
      else st
    match line.error with
    | none => st
    | some emsg =>
        (markItemFailed st.1 recId? emsg,
         { st.2 with errors := st.2.errors ++ [(key, emsg)] })

/-- `BatchService._download_and_process_file` (batch_service.py 487-609)
on an already-downloaded, already-parsed result file.  The surrounding
`try/except` classifying download failures (the known provider defect) is
outside this model since the lines are supplied directly. -/
def download_and_process_file (drive : DriveService) (fname : BatchJobImage → String)
    (lines : List FileLine) (keyedItems : List BatchJobImage)
    (items : List BatchJobImage) (result : ReconResult) :
    List BatchJobImage × ReconResult :=
  lines.foldl (fileHandleLine drive fname keyedItems) (items, result)

/-- `job.dest` of the provider's job object: a truthy `file_name` (the
downloaded artifact is carried alongside, pre-parsed), truthy
`inlined_responses`, or neither. -/
inductive Dest where
  | fileDest (file_name : String) (lines : List FileLine)
  | inlined (responses : List InlineResponse)
  | unknownFormat
  deriving Repr, DecidableEq

/-- The provider's job object as returned by `client.batches.get`. -/
structure ProviderJob where
  state : JobState
  dest : Option Dest := none
  deriving Repr, DecidableEq

/-- `BatchService._download_batch_results` (batch_service.py 302-409):
maps the provider state onto the ledger status, records job-level errors
on FAILED/CANCELLED, and on SUCCEEDED reconciles the result payload.
Returns the updated Job row, the updated items table, and the result. -/
def download_batch_results (drive : DriveService) (fname : BatchJobImage → String)
    (job : ProviderJob) (bj : BatchJob) (items : List BatchJobImage) :
    BatchJob × List BatchJobImage × ReconResult :=
  let state := lastDotComponent (JobState.toStr job.state)
  let res : ReconResult := { job_name := bj.job_name, state := state }
  let bj :=
    if state == "JOB_STATE_SUCCEEDED" then { bj with status := "SUCCEEDED" }
    else if state == "JOB_STATE_FAILED" then { bj with status := "FAILED" }
    else if state == "JOB_STATE_CANCELLED" then { bj with status := "CANCELLED" }
    else if state == "JOB_STATE_RUNNING" then { bj with status := "RUNNING" }
    else bj
  if state ∉ ["JOB_STATE_SUCCEEDED", "JOB_STATE_FAILED", "JOB_STATE_CANCELLED"] then
    (bj, items, res)
  else
    let res := { res with completed := true }
    if state == "JOB_STATE_FAILED" then
      let bj := { bj with error_message := some "Batch job завершился с ошибкой" }
      (bj, items, { res with error := bj.error_message })
    else if state == "JOB_STATE_CANCELLED" then
      let bj := { bj with error_message := some "Batch job был отменён" }
      (bj, items, { res with error := bj.error_message })
    else
      let res := { res with success := true }
      match job.dest with
      | none => (bj, items, { res with error := some "Нет информации о результатах (dest отсутствует)" })
      | some dest =>
          let keyedItems := items.filter (fun i => i.batch_job_id == bj.id)
          match dest with
          | .fileDest _ lines =>
              let pr := download_and_process_file drive fname lines keyedItems items res
              (bj, pr.1, pr.2)
          | .inlined rs =>
              let pr := process_inline_responses drive fname rs keyedItems items res
              (bj, pr.1, pr.2)
          | .unknownFormat =>
              (bj, items,
               { res with errors := res.errors ++ [("unknown", "Неизвестный формат результатов")] })

/-! ## Status aggregation (`check_and_download_results`) -/

/-- The `StatusCheckResult` dataclass (batch_service.py lines 38-55).
`errors_grouped` is the dict, kept as an insertion-ordered association
list (Python dicts preserve insertion order). -/
structure StatusCheckResult where
  total_jobs : Nat := 0
  jobs_pending : Nat := 0
  jobs_running : Nat := 0
  jobs_succeeded : Nat := 0
  jobs_failed : Nat := 0
  jobs_cancelled : Nat := 0
  total_images : Nat := 0
  images_succeeded : Nat := 0
  images_failed : Nat := 0
  images_pending : Nat := 0
  errors_grouped : List (String × Nat) := []
  processed_jobs : List String := []
  deriving Repr, DecidableEq

/-- `if msg in errors_grouped: += 1 else: = 1` on the grouping dict. -/
def bumpError (g : List (String × Nat)) (msg : String) : List (String × Nat) :=
  if g.any (fun p => p.1 == msg) then
    g.map (fun p => if p.1 == msg then (p.1, p.2 + 1) else p)
  else g ++ [(msg, 1)]

/-- Body of the per-image tallying loop (batch_service.py lines 675-681). -/
def tallyImageStep (r : StatusCheckResult) (img : BatchJobImage) : StatusCheckResult :=
  if img.status == "SUCCEEDED" then { r with images_succeeded := r.images_succeeded + 1 }
  else if img.status == "FAILED" then { r with images_failed := r.images_failed + 1 }
  else { r with images_pending := r.images_pending + 1 }

/-- The per-image tallying loop over `session.query(BatchJobImage).all()`
(batch_service.py lines 671-683). -/
def tallyImages (items : List BatchJobImage) (r : StatusCheckResult) : StatusCheckResult :=
  items.foldl tallyImageStep r

/-- The per-job state bucketing of `check_and_download_results`
(batch_service.py lines 644-654). -/
def bucketJobState (r : StatusCheckResult) (state : String) : StatusCheckResult :=
  if state == "JOB_STATE_PENDING" then { r with jobs_pending := r.jobs_pending + 1 }
  else if state == "JOB_STATE_RUNNING" then { r with jobs_running := r.jobs_running + 1 }
  else if state == "JOB_STATE_SUCCEEDED" then { r with jobs_succeeded := r.jobs_succeeded + 1 }
  else if state == "JOB_STATE_FAILED" then { r with jobs_failed := r.jobs_failed + 1 }
  else if state == "JOB_STATE_CANCELLED" then { r with jobs_cancelled := r.jobs_cancelled + 1 }
  else r

/-- Body of the per-job loop of `check_and_download_results`
(batch_service.py lines 636-669): log the job, reconcile it, write the
updated Job row back, bucket its state, and group its errors. -/
def checkJobStep (drive : DriveService) (fname : BatchJobImage → String)
    (getJob : String → ProviderJob)
    (acc : List BatchJob × List BatchJobImage × StatusCheckResult) (bj : BatchJob) :
    List BatchJob × List BatchJobImage × StatusCheckResult :=
  let r := { acc.2.2 with processed_jobs := acc.2.2.processed_jobs ++ [bj.job_name] }
  let pr := download_batch_results drive fname (getJob bj.job_name) bj acc.2.1
  let r := bucketJobState r pr.2.2.state
  let r := pr.2.2.errors.foldl
    (fun r e => { r with errors_grouped := bumpError r.errors_grouped e.2 }) r
  (setJob acc.1 pr.1, pr.2.1, r)

/-- `BatchService.check_and_download_results` (batch_service.py 611-683).
`getJob` is the provider poll oracle (`client.batches.get` by job name);
remote calls are total here, so the `except` arm that converts a per-job
exception into a `jobs_failed` bump is never taken in the model.
Returns the updated jobs table, items table, and the statistics. -/
def check_and_download_results (drive : DriveService) (fname : BatchJobImage → String)
    (getJob : String → ProviderJob)
    (jobs : List BatchJob) (items : List BatchJobImage)
    (statuses : Option (List String) := none) :
    List BatchJob × List BatchJobImage × StatusCheckResult :=
  let statuses := statuses.getD ["PENDING", "RUNNING"]
  let selected := jobs.filter (fun j => j.status ∈ statuses)
  let init : StatusCheckResult := { total_jobs := selected.length }
  let stepped := selected.foldl (checkJobStep drive fname getJob) (jobs, items, init)
  let r := { stepped.2.2 with total_images := stepped.2.1.length }
  (stepped.1, stepped.2.1, tallyImages stepped.2.1 r)

/-! ## Job submission (`create_batch_job`) -/

/-- `BASE_PROMPT` (batch_service.py lines 20-24). -/
def BASE_PROMPT : String :=
  "Фотографии должны выглядеть будто сфотографировано профессиональным фотографом с качественным светом на профессиональном оборудовании."
  ++ "На фотографии реальный объект, искажать геометрию нельзя."
  ++ "Изображение будет использоваться для каталога мебели на сайте производителе нестандартной офисной мебели."

/-- The `ImageTask` dataclass (batch_service.py lines 58-69). -/
structure ImageTask where
  image_path : String
  model_name : String
  order_number : String
  custom_prompt : String
  position : Int := 0
  category : String := ""
  page_url : String := ""
  source_url : String := ""
  deriving Repr, DecidableEq

/-- The remote inference provider as consumed by submission.
`upload_image path` is the `.name` of the handle returned for a source
asset (`none` models a handle whose `name is None`); `upload_jsonl` the
manifest-asset handle name; `create_batch` the `.name` of the created
remote job. -/
structure Provider where
  upload_image : String → Option String
  upload_jsonl : Option String
  create_batch : Option String

/-- Observable outcome of one `create_batch_job` call: which remote
uploads were attempted, whether the local temporary manifest file was
written and whether it was unlinked, and the exception if one was
raised.  The ledger tables are returned separately. -/
structure SubmitResult where
  uploads_attempted : List String := []
  manifest_written : Bool := false
  manifest_deleted : Bool := false
  error : Option String := none
  deriving Repr, DecidableEq

/-- `BatchService.create_batch_job` (batch_service.py lines 88-214).
`fs` is the local filesystem oracle (`Path(p).exists()`); `batch_key`
stands for the `uuid4()` batch key and `freshId i` for the uuid primary
keys (index 0 the Job row, `i+1` the i-th Item row); `model` is
`self.model`.  Path absolutization and the manifest's JSON text are not
observable by any claim and are carried as the raw path / elided. -/
def create_batch_job (fs : String → Bool) (provider : Provider) (model : String)
    (batch_key : String) (freshId : Nat → String)
    (jobs : List BatchJob) (items : List BatchJobImage) (tasks : List ImageTask) :
    SubmitResult × List BatchJob × List BatchJobImage :=
  match tasks.find? (fun t => !fs t.image_path) with
  | some t =>
      ({ error := some ("Файл не найден: " ++ t.image_path) }, jobs, items)
  | none =>
      let uploaded := tasks.map (fun t => (provider.upload_image t.image_path, t))
      let request_keys := (List.range tasks.length).map
        (fun i => batch_key ++ "-" ++ toString i)
      let r0 : SubmitResult :=
        { uploads_attempted := tasks.map (fun t => t.image_path), manifest_written := true }
      match provider.upload_jsonl with
      | none => ({ r0 with error := some "Референс JSONL нулевой" }, jobs, items)
      | some jsonl_name =>
          if uploaded.any (fun p => p.1 == none) then
            ({ r0 with error := some "Референс изображения нулевой" }, jobs, items)
          else
            let source_image_names := uploaded.filterMap (fun p => p.1)
            -- `client.batches.create(...)` returns, then `Path(jsonl_filename).unlink()`
            let r1 := { r0 with manifest_deleted := true }
            match provider.create_batch with
            | none => ({ r1 with error := some "Не вернулось название batch job" }, jobs, items)
            | some job_name =>
                let jobId := freshId 0
                let batch_job : BatchJob :=
                  { id := jobId
                    job_name := job_name
                    source_image_names := source_image_names
                    jsonl_file_name := jsonl_name
                    original_image_paths := tasks.map (fun t => t.image_path)
                    model := model
                    status := "PENDING" }
                let newItems := (uploaded.zip request_keys).enum.map
                  (fun pr =>
                    let i := pr.1
                    let ufName := pr.2.1.1
                    let task := pr.2.1.2
                    let rkey := pr.2.2
                    { id := freshId (i + 1)
                      batch_job_id := jobId
                      request_key := rkey
                      source_image_name := ufName.getD ""
                      original_image_path := task.image_path
                      source_url := some task.source_url
                      model_name := task.model_name
                      order_number := task.order_number
                      position := task.position
                      page_url := task.page_url
                      prompt := some (task.custom_prompt ++ ". " ++ BASE_PROMPT) : BatchJobImage })
                (r1, jobs ++ [batch_job], items ++ newItems)

/-! ## Publish readiness gate (handlers/publish.py) -/

/-- The ledger query feeding the captioning step
(publish.py lines 63-70): status SUCCEEDED, non-null result_file,
not yet published. -/
def captioning_candidate_query (i : BatchJobImage) : Bool :=
  i.status == "SUCCEEDED" && i.result_file.isSome && i.published == false

/-- The ledger query feeding the actual publish step
(publish.py lines 152-161): additionally non-null title and description. -/
def publish_candidate_query (i : BatchJobImage) : Bool :=
  i.status == "SUCCEEDED" && i.result_file.isSome
    && i.title.isSome && i.description.isSome && i.published == false

/-- The readiness predicate in the spec's words (§4.5): status SUCCEEDED,
result_file non-null, published false. -/
def readiness_pred_spec (i : BatchJobImage) : Bool :=
  i.status == "SUCCEEDED" && i.result_file.isSome && i.published == false

/-- The stricter publish predicate in the spec's words (§4.5): readiness
plus non-null caption fields, where §3 lists the caption fields as alt
text, title and long description. -/
def strict_publish_pred_spec (i : BatchJobImage) : Bool :=
  readiness_pred_spec i && i.alt.isSome && i.title.isSome && i.description.isSome

/-! ## Shared fixtures and helper lemmas -/

/-- The five states of the ledger's job-status model (spec §4.3). -/
def modelJobStates : List String :=
  ["PENDING", "RUNNING", "SUCCEEDED", "FAILED", "CANCELLED"]

/-- A fresh Job row as `create_batch_job` persists it. -/
def exJob : BatchJob :=
  { id := "J1", job_name := "batches/x", source_image_names := ["img0"],
    jsonl_file_name := "jl", original_image_paths := ["/a.png"], model := "m" }

/-- A pending Item of `exJob` with request key `k1`. -/
def exItem1 : BatchJobImage := { id := "I1", batch_job_id := "J1", request_key := "k1" }

/-- A pending Item of `exJob` with request key `k2`. -/
def exItem2 : BatchJobImage := { id := "I2", batch_job_id := "J1", request_key := "k2" }

/-- An asset store whose uploads always succeed with handle `fid`. -/
def exDrive : DriveService := ⟨fun _ _ => some "fid"⟩

/-- A deterministic stand-in for the output-filename derivation. -/
def exFname : BatchJobImage → String := fun _ => "out.jpg"

theorem foldl_fixed {α β : Type _} (f : α → β → α) (l : List β) (a : α)
    (h : ∀ a' x, x ∈ l → f a' x = a') : l.foldl f a = a := by
  induction l generalizing a with
  | nil => rfl
  | cons x xs ih =>
      rw [List.foldl_cons, h a x (List.mem_cons_self x xs)]
      exact ih a (fun a' y hy => h a' y (List.mem_cons_of_mem x hy))

theorem foldl_preserves {α β γ : Type _} (proj : α → γ) (f : α → β → α) (l : List β) (a : α)
    (h : ∀ a' x, proj (f a' x) = proj a') : proj (l.foldl f a) = proj a := by
  induction l generalizing a with
  | nil => rfl
  | cons x xs ih => rw [List.foldl_cons, ih (f a x), h]

/-! ## C1, C2: status-check writes -/

/-- C1: the claim says a Job whose remote state is reported FAILED ends
with a non-null completion timestamp.  In the code this is false: the
reconciliation pass `_download_batch_results` sets the terminal status
and the error message but never assigns `completed_at`, and
`check_job_status` guards its `completed_at` assignment by comparing the
provider enum name (`JOB_STATE_FAILED`) against the short names
`SUCCEEDED/FAILED/CANCELLED`, which never match.  Evaluated here at the
failing input: a PENDING job whose remote state is `JOB_STATE_FAILED`. -/
theorem C1_terminal_job_without_completion_timestamp :
    (let out := download_batch_results exDrive exFname
        { state := .JOB_STATE_FAILED } exJob [exItem1]
     out.1.status = "FAILED" ∧
       out.1.error_message = some "Batch job завершился с ошибкой" ∧
       out.1.completed_at = none) ∧
    (let out := check_job_status [exJob] "batches/x" (some .JOB_STATE_FAILED) 5
     out.1.map (fun j => (j.status, j.completed_at)) = [("JOB_STATE_FAILED", none)]) := by
  decide

/-- C2: the claim says every status value written by a status check is
one of the five model states.  `check_job_status` writes
`job_info.state.name` verbatim, i.e. the provider vocabulary
`JOB_STATE_*`, which is not in the model vocabulary — evaluated at a job
whose remote state is `JOB_STATE_RUNNING`. -/
theorem C2_raw_provider_state_written_to_ledger :
    (let out := check_job_status [exJob] "batches/x" (some .JOB_STATE_RUNNING) 0
     out.1.map (fun j => j.status) = ["JOB_STATE_RUNNING"]) ∧
    "JOB_STATE_RUNNING" ∉ modelJobStates := by
  decide

/-! ## C4: atomic submission -/

/-- C4: if any request's source path does not exist, `create_batch_job`
raises, creates no Job and no Item rows, and attempts no remote upload
(the validation loop runs to completion before the first upload). -/
theorem C4_submission_atomic_on_missing_path
    (fs : String → Bool) (provider : Provider) (model batch_key : String)
    (freshId : Nat → String) (jobs : List BatchJob) (items : List BatchJobImage)
    (tasks : List ImageTask) (h : ∃ t ∈ tasks, fs t.image_path = false) :
    (create_batch_job fs provider model batch_key freshId jobs items tasks).1.error.isSome = true ∧
    (create_batch_job fs provider model batch_key freshId jobs items tasks).2.1 = jobs ∧
    (create_batch_job fs provider model batch_key freshId jobs items tasks).2.2 = items ∧
    (create_batch_job fs provider model batch_key freshId jobs items tasks).1.uploads_attempted = [] := by
  have hfind : (tasks.find? (fun t => !fs t.image_path)).isSome := by
    rw [List.find?_isSome]
    obtain ⟨t, ht, hft⟩ := h
    exact ⟨t, ht, by simp [hft]⟩
  obtain ⟨t, hsome⟩ := Option.isSome_iff_exists.mp hfind
  simp [create_batch_job, hsome]

/-- A one-request task fixture. -/
def exTask : ImageTask :=
  { image_path := "/a.png", model_name := "m", order_number := "1", custom_prompt := "p" }

/-- Closed instance of C4 at a one-request list whose path is missing. -/
theorem C4_submission_atomic_on_missing_path_witness :
    (∃ t ∈ [exTask], (fun (_ : String) => false) t.image_path = false) ∧
    (create_batch_job (fun _ => false) ⟨fun _ => some "h", some "jl", some "bj"⟩ "m" "bk"
        (fun _ => "id") [] [] [exTask]).2.1 = [] :=
  ⟨⟨exTask, List.mem_singleton.mpr rfl, rfl⟩,
   (C4_submission_atomic_on_missing_path (fun _ => false)
      ⟨fun _ => some "h", some "jl", some "bj"⟩ "m" "bk" (fun _ => "id") [] []
      [exTask] ⟨exTask, List.mem_singleton.mpr rfl, rfl⟩).2.1⟩

/-! ## C7: temporary manifest cleanup -/

/-- C7 counterexample: the claim says every submission attempt that
writes the local temporary request-manifest file deletes it before
finishing, success or failure.  The `Path(jsonl_filename).unlink()` call
sits on the straight-line success path only: when the manifest upload
comes back with a null handle the submission raises first and the file
survives, as it does on this input. -/
theorem C7_manifest_left_behind_on_failed_manifest_upload :
    (create_batch_job (fun _ => true) ⟨fun _ => some "h", none, some "bj"⟩ "m" "bk"
        (fun _ => "id") [] [] [exTask]).1.manifest_written = true ∧
    (create_batch_job (fun _ => true) ⟨fun _ => some "h", none, some "bj"⟩ "m" "bk"
        (fun _ => "id") [] [] [exTask]).1.manifest_deleted = false ∧
    (create_batch_job (fun _ => true) ⟨fun _ => some "h", none, some "bj"⟩ "m" "bk"
        (fun _ => "id") [] [] [exTask]).1.error.isSome = true := by
  decide

/-- C7 amended: the temporary manifest file is deleted exactly when the
submission reaches the remote batch-creation call — every source path
exists, the manifest upload returns a non-null handle, and every
uploaded source-asset handle is non-null.  Failures before that point
(missing path, null manifest or asset handle) leave the file behind;
failures after it (null job name) still see it deleted. -/
theorem C7_manifest_deleted_iff_batch_create_reached
    (fs : String → Bool) (provider : Provider) (model batch_key : String)
    (freshId : Nat → String) (jobs : List BatchJob) (items : List BatchJobImage)
    (tasks : List ImageTask) :
    (create_batch_job fs provider model batch_key freshId jobs items tasks).1.manifest_deleted =
      ((tasks.find? (fun t => !fs t.image_path)).isNone
        && (provider.upload_jsonl.isSome
        && !((tasks.map (fun t => (provider.upload_image t.image_path, t))).any
              (fun p => p.1 == none)))) := by
  cases hf : tasks.find? (fun t => !fs t.image_path) with
  | some t => simp [create_batch_job, hf]
  | none =>
      cases hj : provider.upload_jsonl with
      | none => simp [create_batch_job, hf, hj]
      | some jl =>
          cases ha : (tasks.map (fun t => (provider.upload_image t.image_path, t))).any
              (fun p => p.1 == none) with
          | true => simp [create_batch_job, hf, hj, ha]
          | false =>
              cases hc : provider.create_batch <;>
                simp [create_batch_job, hf, hj, ha, hc]

/-! ## C6: FAILED/CANCELLED frame property -/

/-- C6: reconciliation of a Job whose remote state maps to FAILED or
CANCELLED records the corresponding fixed error message on the Job and
returns the items table exactly as it was. -/
theorem C6_failed_cancelled_leaves_items_unchanged
    (drive : DriveService) (fname : BatchJobImage → String) (st : JobState)
    (dest : Option Dest) (bj : BatchJob) (items : List BatchJobImage)
    (h : st = .JOB_STATE_FAILED ∨ st = .JOB_STATE_CANCELLED) :
    (download_batch_results drive fname { state := st, dest := dest } bj items).2.1 = items ∧
    (download_batch_results drive fname { state := st, dest := dest } bj items).1.error_message =
      some (if st = .JOB_STATE_FAILED then "Batch job завершился с ошибкой"
            else "Batch job был отменён") := by
  rcases h with rfl | rfl
  · exact ⟨rfl, rfl⟩
  · exact ⟨rfl, rfl⟩

/-- Closed instance of C6 at a CANCELLED job with two pending items. -/
theorem C6_failed_cancelled_leaves_items_unchanged_witness :
    (download_batch_results exDrive exFname
        { state := .JOB_STATE_CANCELLED } exJob [exItem1, exItem2]).2.1 = [exItem1, exItem2] ∧
    (download_batch_results exDrive exFname
        { state := .JOB_STATE_CANCELLED } exJob [exItem1, exItem2]).1.error_message =
      some "Batch job был отменён" := by
  have h := C6_failed_cancelled_leaves_items_unchanged exDrive exFname .JOB_STATE_CANCELLED
    none exJob [exItem1, exItem2] (Or.inr rfl)
  exact ⟨h.1, h.2⟩

/-! ## C3: per-item error recording on a SUCCEEDED job -/

theorem inlineHandlePart_no_data (drive : DriveService) (fname : BatchJobImage → String)
    (key : String) (recId? : Option String) (st : List BatchJobImage × ReconResult)
    (p : InlinePart) (h : p.inline_data = none) :
    inlineHandlePart drive fname key recId? st p = st := by
  simp [inlineHandlePart, h]

theorem inlineHandleResponse_no_image_no_error (drive : DriveService)
    (fname : BatchJobImage → String) (keyedItems : List BatchJobImage)
    (st : List BatchJobImage × ReconResult) (key : String) (cs : List InlineCandidate)
    (hcs : ∀ c ∈ cs, ∀ ps, c.content = some ps → ∀ p ∈ ps, p.inline_data = none) :
    inlineHandleResponse drive fname keyedItems st
      { key := some key, response := some cs, error := none } = st := by
  unfold inlineHandleResponse
  cases hkt : strTruthy (some key) with
  | false => simp [hkt]
  | true =>
      simp only [hkt, Bool.not_true, Bool.false_eq_true, if_false]
      refine foldl_fixed _ cs st ?_
      intro st' c hcmem
      cases hc : c.content with
      | none => simp [hc]
      | some ps =>
          simp only [hc]
          exact foldl_fixed _ ps st' (fun st'' p hp =>
            inlineHandlePart_no_data _ _ _ _ _ _ (hcs c hcmem ps hc p hp))

/-- An inline response entry that carries neither an image payload nor
an error object for request key `k1`. -/
def exNoImageInline : InlineResponse :=
  { key := some "k1", response := some [{ content := some [{ inline_data := none }] }] }

/-- C3 counterexample: the claim says an entry whose payload has neither
an image nor an explicit error marks the matching Item FAILED with a
synthetic "no image produced" message in BOTH encodings.  The inline
branch has no such synthesis: reconciling a SUCCEEDED job whose inline
payload for `k1` has no image and no error leaves the PENDING Item
exactly as it was, with no error message. -/
theorem C3_inline_entry_without_image_or_error_untouched :
    (download_batch_results exDrive exFname
        { state := .JOB_STATE_SUCCEEDED, dest := some (.inlined [exNoImageInline]) }
        exJob [exItem1]).2.1 = [exItem1] ∧
    exItem1.status = "PENDING" ∧ exItem1.error_message = none := by
  decide

/-- C3 amended: in the file-encoded branch an entry with neither an
image nor an explicit error marks the matching Item FAILED with the
synthetic "Изображение не сгенерировано" message, and in both branches
an explicit error object is recorded verbatim with status FAILED; in the
inline branch, however, an entry with neither image nor error leaves the
ledger untouched (no synthetic failure is recorded there). -/
theorem C3_per_item_error_recording
    (drive : DriveService) (fname : BatchJobImage → String)
    (keyedItems items : List BatchJobImage) (res : ReconResult)
    (key e : String) (img : BatchJobImage) (cs : List InlineCandidate)
    (hk : key ≠ "")
    (hfind : dictGetByKey keyedItems key = some img)
    (hcur : findItemById items img.id = some img)
    (hcs : ∀ c ∈ cs, ∀ ps, c.content = some ps → ∀ p ∈ ps, p.inline_data = none) :
    fileHandleLine drive fname keyedItems (items, res) { key := some key } =
      (setItem items { img with error_message := some "Изображение не сгенерировано", status := "FAILED" },
       { res with errors := res.errors ++ [(key, "Изображение не сгенерировано")] }) ∧
    inlineHandleResponse drive fname keyedItems (items, res)
      { key := some key, response := some cs } = (items, res) ∧
    fileHandleLine drive fname keyedItems (items, res) { key := some key, error := some e } =
      (setItem items { img with error_message := some e, status := "FAILED" },
       { res with errors := res.errors ++ [(key, e)] }) ∧
    inlineHandleResponse drive fname keyedItems (items, res) { key := some key, error := some e } =
      (setItem items { img with error_message := some e, status := "FAILED" },
       { res with errors := res.errors ++ [(key, e)] }) := by
  have hkt : strTruthy (some key) = true := by simp [strTruthy, hk]
  refine ⟨?_, ?_, ?_, ?_⟩
  · simp [fileHandleLine, hkt, hfind, markItemFailed, hcur]
  · exact inlineHandleResponse_no_image_no_error drive fname keyedItems (items, res) key cs hcs
  · simp [fileHandleLine, hkt, hfind, markItemFailed, hcur]
  · simp [inlineHandleResponse, hkt, hfind, markItemFailed, hcur]

/-- Closed instance of C3 (amended) at a one-item ledger: the inline
no-image entry leaves it unchanged and the file-encoded error entry
records the error verbatim. -/
theorem C3_per_item_error_recording_witness :
    inlineHandleResponse exDrive exFname [exItem1] ([exItem1], {})
      { key := some "k1", response := some [{ content := some [{ inline_data := none }] }] } =
      ([exItem1], ({} : ReconResult)) ∧
    fileHandleLine exDrive exFname [exItem1] ([exItem1], {}) { key := some "k1", error := some "boom" } =
      (setItem [exItem1] { exItem1 with error_message := some "boom", status := "FAILED" },
       { ({} : ReconResult) with errors := [("k1", "boom")] }) := by
  have h := C3_per_item_error_recording exDrive exFname [exItem1] [exItem1] {} "k1" "boom"
    exItem1 [{ content := some [{ inline_data := none }] }]
    (by decide) (by decide) (by decide) (by decide)
  exact ⟨h.2.1, h.2.2.1⟩

/-! ## C5: mixed file-encoded result, order independence -/

theorem fileHandleLine_error_only (drive : DriveService) (fname : BatchJobImage → String)
    (keyedItems items : List BatchJobImage) (res : ReconResult) (key e : String)
    (img : BatchJobImage) (hk : key ≠ "")
    (hfind : dictGetByKey keyedItems key = some img)
    (hcur : findItemById items img.id = some img) :
    fileHandleLine drive fname keyedItems (items, res) { key := some key, error := some e } =
      (setItem items { img with error_message := some e, status := "FAILED" },
       { res with errors := res.errors ++ [(key, e)] }) := by
  have hkt : strTruthy (some key) = true := by simp [strTruthy, hk]
  simp [fileHandleLine, hkt, hfind, markItemFailed, hcur]

theorem fileHandleLine_image_success (drive : DriveService) (fname : BatchJobImage → String)
    (keyedItems items : List BatchJobImage) (res : ReconResult) (key data fid : String)
    (img : BatchJobImage) (hk : key ≠ "")
    (hfind : dictGetByKey keyedItems key = some img)
    (hcur : findItemById items img.id = some img)
    (hup : drive.upload_file data (fname img) = some fid) (hfid : fid ≠ "") :
    fileHandleLine drive fname keyedItems (items, res)
      { key := some key, candidates := some [{ parts := some [{ inline_data := some data }] }] } =
      (setItem items { img with result_file := some fid, status := "SUCCEEDED" },
       { res with output_files := res.output_files ++ [(key, fid)] }) := by
  have hkt : strTruthy (some key) = true := by simp [strTruthy, hk]
  have hft : strTruthy (some fid) = true := by simp [strTruthy, hfid]
  simp [fileHandleLine, fileScanParts, hkt, hfind, hcur, hup, hft]

theorem download_batch_results_succeeded_file (drive : DriveService)
    (fname : BatchJobImage → String) (rfname : String) (lines : List FileLine)
    (bj : BatchJob) (items : List BatchJobImage) :
    download_batch_results drive fname
      { state := .JOB_STATE_SUCCEEDED, dest := some (.fileDest rfname lines) } bj items =
      ({ bj with status := "SUCCEEDED" },
       download_and_process_file drive fname lines
         (items.filter (fun i => i.batch_job_id == bj.id)) items
         { job_name := bj.job_name, state := "JOB_STATE_SUCCEEDED",
           completed := true, success := true }) := by
  rfl

/-- C5: reconciling a SUCCEEDED job whose file-encoded result holds one
line with an image payload (whose store push succeeds with handle `fid`)
and one line with an error object yields, in either line order, exactly
one Item SUCCEEDED with the non-null result_file `fid` and the other
FAILED with the error text recorded. -/
theorem C5_mixed_file_result_order_independent
    (drive : DriveService) (fname : BatchJobImage → String) (bj : BatchJob)
    (i1 i2 : BatchJobImage) (rfname data e fid : String)
    (hid : i1.id ≠ i2.id) (hkey : i1.request_key ≠ i2.request_key)
    (hk1 : i1.request_key ≠ "") (hk2 : i2.request_key ≠ "")
    (hb1 : i1.batch_job_id = bj.id) (hb2 : i2.batch_job_id = bj.id)
    (hup : drive.upload_file data (fname i1) = some fid) (hfid : fid ≠ "") :
    (download_batch_results drive fname { state := .JOB_STATE_SUCCEEDED, dest := some (.fileDest rfname [{ key := some i1.request_key, candidates := some [{ parts := some [{ inline_data := some data }] }] }, { key := some i2.request_key, error := some e }]) } bj [i1, i2]).2.1 =
      [{ i1 with result_file := some fid, status := "SUCCEEDED" }, { i2 with error_message := some e, status := "FAILED" }] ∧
    (download_batch_results drive fname { state := .JOB_STATE_SUCCEEDED, dest := some (.fileDest rfname [{ key := some i2.request_key, error := some e }, { key := some i1.request_key, candidates := some [{ parts := some [{ inline_data := some data }] }] }]) } bj [i1, i2]).2.1 =
      [{ i1 with result_file := some fid, status := "SUCCEEDED" }, { i2 with error_message := some e, status := "FAILED" }] := by
  have hbe1 : (i1.batch_job_id == bj.id) = true := by simp [hb1]
  have hbe2 : (i2.batch_job_id == bj.id) = true := by simp [hb2]
  have hkeyed : List.filter (fun i => i.batch_job_id == bj.id) [i1, i2] = [i1, i2] := by
    simp [List.filter, hbe1, hbe2]
  have hne12 : (i1.request_key == i2.request_key) = false := by
    simp only [beq_eq_false_iff_ne, ne_eq]
    exact hkey
  have hne21 : (i2.request_key == i1.request_key) = false := by
    simp only [beq_eq_false_iff_ne, ne_eq]
    exact Ne.symm hkey
  have hnid12 : (i1.id == i2.id) = false := by
    simp only [beq_eq_false_iff_ne, ne_eq]
    exact hid
  have hnid21 : (i2.id == i1.id) = false := by
    simp only [beq_eq_false_iff_ne, ne_eq]
    exact Ne.symm hid
  have hd1 : dictGetByKey [i1, i2] i1.request_key = some i1 := by
    simp [dictGetByKey, List.filter, hne21]
  have hd2 : dictGetByKey [i1, i2] i2.request_key = some i2 := by
    simp [dictGetByKey, List.filter, hne12]
  have hcur1 : findItemById [i1, i2] i1.id = some i1 := by
    simp [findItemById]
  have hcur2 : findItemById [i1, i2] i2.id = some i2 := by
    simp [findItemById, hnid12]
  have hset1 : setItem [i1, i2] { i1 with result_file := some fid, status := "SUCCEEDED" } =
      [{ i1 with result_file := some fid, status := "SUCCEEDED" }, i2] := by
    simp [setItem, hnid21, Ne.symm hid]
  have hset2 : setItem [i1, i2] { i2 with error_message := some e, status := "FAILED" } =
      [i1, { i2 with error_message := some e, status := "FAILED" }] := by
    simp [setItem, hnid12, hid]
  have hcur2' : findItemById [{ i1 with result_file := some fid, status := "SUCCEEDED" }, i2] i2.id = some i2 := by
    simp [findItemById, hnid12]
  have hcur1' : findItemById [i1, { i2 with error_message := some e, status := "FAILED" }] i1.id = some i1 := by
    simp [findItemById]
  have hset2' : setItem [{ i1 with result_file := some fid, status := "SUCCEEDED" }, i2] { i2 with error_message := some e, status := "FAILED" } =
      [{ i1 with result_file := some fid, status := "SUCCEEDED" }, { i2 with error_message := some e, status := "FAILED" }] := by
    simp [setItem, hnid12, hid]
  have hset1' : setItem [i1, { i2 with error_message := some e, status := "FAILED" }] { i1 with result_file := some fid, status := "SUCCEEDED" } =
      [{ i1 with result_file := some fid, status := "SUCCEEDED" }, { i2 with error_message := some e, status := "FAILED" }] := by
    simp [setItem, hnid21, Ne.symm hid]
  constructor
  · rw [download_batch_results_succeeded_file]
    show (download_and_process_file _ _ _ _ _ _).1 = _
    rw [download_and_process_file, hkeyed, List.foldl_cons,
      fileHandleLine_image_success drive fname [i1, i2] [i1, i2] _ i1.request_key data fid i1
        hk1 hd1 hcur1 hup hfid, hset1, List.foldl_cons,
      fileHandleLine_error_only drive fname [i1, i2] _ _ i2.request_key e i2 hk2 hd2 hcur2',
      hset2', List.foldl_nil]
  · rw [download_batch_results_succeeded_file]
    show (download_and_process_file _ _ _ _ _ _).1 = _
    rw [download_and_process_file, hkeyed, List.foldl_cons,
      fileHandleLine_error_only drive fname [i1, i2] [i1, i2] _ i2.request_key e i2 hk2 hd2 hcur2,
      hset2, List.foldl_cons,
      fileHandleLine_image_success drive fname [i1, i2] _ _ i1.request_key data fid i1
        hk1 hd1 hcur1' hup hfid, hset1', List.foldl_nil]

/-- Closed instance of C5 at the two fixture items in both line orders. -/
theorem C5_mixed_file_result_order_independent_witness :
    (download_batch_results exDrive exFname { state := .JOB_STATE_SUCCEEDED, dest := some (.fileDest "out" [{ key := some "k1", candidates := some [{ parts := some [{ inline_data := some "AAAA" }] }] }, { key := some "k2", error := some "boom" }]) } exJob [exItem1, exItem2]).2.1 =
      [{ exItem1 with result_file := some "fid", status := "SUCCEEDED" }, { exItem2 with error_message := some "boom", status := "FAILED" }] ∧
    (download_batch_results exDrive exFname { state := .JOB_STATE_SUCCEEDED, dest := some (.fileDest "out" [{ key := some "k2", error := some "boom" }, { key := some "k1", candidates := some [{ parts := some [{ inline_data := some "AAAA" }] }] }]) } exJob [exItem1, exItem2]).2.1 =
      [{ exItem1 with result_file := some "fid", status := "SUCCEEDED" }, { exItem2 with error_message := some "boom", status := "FAILED" }] := by
  have h := C5_mixed_file_result_order_independent exDrive exFname exJob exItem1 exItem2
    "out" "AAAA" "boom" "fid" (by decide) (by decide) (by decide) (by decide)
    (by decide) (by decide) rfl (by decide)
  exact h

/-! ## C8: publish readiness gate -/

/-- A successfully generated, still-unpublished Item with no captions at
all: selected by the captioning query, rejected by the publish query. -/
def exReadyUncaptioned : BatchJobImage :=
  { exItem1 with status := "SUCCEEDED", result_file := some "fid" }

/-- An Item that was captioned with title and description but no alt
text: eligible for the code's publish query. -/
def exUncaptionedAlt : BatchJobImage :=
  { id := "I5", batch_job_id := "J1", request_key := "k5", status := "SUCCEEDED",
    result_file := some "fid", title := some "t", description := some "d",
    alt := none, published := false }

/-- C8 counterexample: the claim says the publish-stage predicate
additionally requires the Item's caption fields (alt text, title, long
description per the data model) to be non-null.  The code's publish query
does not filter on `alt`: this Item has a null alt text yet satisfies the
publish query, while the spec's strict predicate rejects it. -/
theorem C8_publish_query_ignores_alt :
    publish_candidate_query exUncaptionedAlt = true ∧
    strict_publish_pred_spec exUncaptionedAlt = false := by
  decide

/-- C8 amended: the captioning-stage candidate query is exactly the
spec's readiness predicate (SUCCEEDED, non-null result_file, not
published); the publish-stage query is that predicate strengthened by
non-null title and non-null description only (alt text is not required);
the two queries are distinct, witnessed by an Item with a result but no
captions that the captioning query selects and the publish query
rejects. -/
theorem C8_gate_predicates :
    (∀ i : BatchJobImage, captioning_candidate_query i = readiness_pred_spec i) ∧
    (∀ i : BatchJobImage, publish_candidate_query i =
      (captioning_candidate_query i && (i.title.isSome && i.description.isSome))) ∧
    captioning_candidate_query exReadyUncaptioned = true ∧
    publish_candidate_query exReadyUncaptioned = false := by
  refine ⟨fun i => rfl, fun i => ?_, by decide, by decide⟩
  unfold publish_candidate_query captioning_candidate_query
  cases i.status == "SUCCEEDED" <;> cases hr : i.result_file.isSome <;>
    cases ht : i.title.isSome <;> cases hd : i.description.isSome <;>
    cases hp : i.published == false <;> simp [hr, ht, hd, hp]

/-! ## C9: image statistics range over the whole ledger -/

/-- The four image-count fields of a `StatusCheckResult`. -/
def imageCounts (r : StatusCheckResult) : Nat × Nat × Nat × Nat :=
  (r.total_images, r.images_succeeded, r.images_failed, r.images_pending)

theorem bucketJobState_imageCounts (r : StatusCheckResult) (s : String) :
    imageCounts (bucketJobState r s) = imageCounts r := by
  unfold bucketJobState
  split_ifs <;> rfl

theorem checkJobStep_imageCounts (drive : DriveService) (fname : BatchJobImage → String)
    (getJob : String → ProviderJob)
    (acc : List BatchJob × List BatchJobImage × StatusCheckResult) (bj : BatchJob) :
    imageCounts (checkJobStep drive fname getJob acc bj).2.2 = imageCounts acc.2.2 := by
  have hb : ∀ (l : List (String × String)) (r : StatusCheckResult),
      imageCounts (l.foldl
        (fun r e => { r with errors_grouped := bumpError r.errors_grouped e.2 }) r) =
        imageCounts r := by
    intro l
    induction l with
    | nil => intro r; rfl
    | cons x xs ih =>
        intro r
        rw [List.foldl_cons, ih]
        rfl
  simp only [checkJobStep]
  rw [hb, bucketJobState_imageCounts]
  rfl

theorem tallyImageStep_total (r : StatusCheckResult) (img : BatchJobImage) :
    (tallyImageStep r img).total_images = r.total_images := by
  unfold tallyImageStep
  split_ifs <;> rfl

theorem tallyImages_total (items : List BatchJobImage) (r : StatusCheckResult) :
    (tallyImages items r).total_images = r.total_images :=
  foldl_preserves (fun r => r.total_images) _ items r tallyImageStep_total

theorem tallyImages_succeeded (items : List BatchJobImage) (r : StatusCheckResult) :
    (tallyImages items r).images_succeeded =
      r.images_succeeded + (items.filter (fun i => i.status == "SUCCEEDED")).length := by
  induction items generalizing r with
  | nil => simp [tallyImages]
  | cons x xs ih =>
      rw [tallyImages, List.foldl_cons, ← tallyImages, ih, List.filter_cons]
      by_cases h1 : x.status == "SUCCEEDED"
      · simp [tallyImageStep, h1]
        omega
      · by_cases h2 : x.status == "FAILED"
        · simp [tallyImageStep, h1, h2]
        · simp [tallyImageStep, h1, h2]

theorem tallyImages_failed (items : List BatchJobImage) (r : StatusCheckResult) :
    (tallyImages items r).images_failed =
      r.images_failed + (items.filter (fun i => i.status == "FAILED")).length := by
  induction items generalizing r with
  | nil => simp [tallyImages]
  | cons x xs ih =>
      rw [tallyImages, List.foldl_cons, ← tallyImages, ih, List.filter_cons]
      by_cases h1 : x.status == "SUCCEEDED"
      · have h2 : (x.status == "FAILED") = false := by
          rw [beq_iff_eq] at h1
          simp [h1]
        simp [tallyImageStep, h1, h2]
      · by_cases h2 : x.status == "FAILED"
        · simp [tallyImageStep, h1, h2]
          omega
        · simp [tallyImageStep, h1, h2]

theorem tallyImages_pending (items : List BatchJobImage) (r : StatusCheckResult) :
    (tallyImages items r).images_pending =
      r.images_pending +
        (items.filter (fun i => i.status != "SUCCEEDED" && i.status != "FAILED")).length := by
  induction items generalizing r with
  | nil => simp [tallyImages]
  | cons x xs ih =>
      rw [tallyImages, List.foldl_cons, ← tallyImages, ih, List.filter_cons]
      by_cases h1 : x.status = "SUCCEEDED"
      · simp [tallyImageStep, h1]
      · by_cases h2 : x.status = "FAILED"
        · simp [tallyImageStep, h1, h2]
        · simp [tallyImageStep, h1, h2]
          omega

/-- C9: the per-image statistics of `check_and_download_results` are
computed over every Item row of the ledger as it stands after the pass —
whatever the job status filter was — not only over Items of the selected
Jobs: `total_images` is the length of the whole items table and the
succeeded/failed/pending counts partition that same table by status. -/
theorem C9_image_stats_count_all_items (drive : DriveService)
    (fname : BatchJobImage → String) (getJob : String → ProviderJob)
    (jobs : List BatchJob) (items : List BatchJobImage)
    (statuses : Option (List String)) :
    (check_and_download_results drive fname getJob jobs items statuses).2.2.total_images =
      (check_and_download_results drive fname getJob jobs items statuses).2.1.length ∧
    (check_and_download_results drive fname getJob jobs items statuses).2.2.images_succeeded =
      ((check_and_download_results drive fname getJob jobs items statuses).2.1.filter
        (fun i => i.status == "SUCCEEDED")).length ∧
    (check_and_download_results drive fname getJob jobs items statuses).2.2.images_failed =
      ((check_and_download_results drive fname getJob jobs items statuses).2.1.filter
        (fun i => i.status == "FAILED")).length ∧
    (check_and_download_results drive fname getJob jobs items statuses).2.2.images_pending =
      ((check_and_download_results drive fname getJob jobs items statuses).2.1.filter
        (fun i => i.status != "SUCCEEDED" && i.status != "FAILED")).length := by
  have hcounts : ∀ (selected : List BatchJob)
      (acc : List BatchJob × List BatchJobImage × StatusCheckResult),
      imageCounts (selected.foldl (checkJobStep drive fname getJob) acc).2.2 =
        imageCounts acc.2.2 := by
    intro selected acc
    exact foldl_preserves (fun a => imageCounts a.2.2) _ selected acc
      (fun a b => checkJobStep_imageCounts drive fname getJob a b)
  simp only [check_and_download_results]
  rw [tallyImages_total, tallyImages_succeeded, tallyImages_failed, tallyImages_pending]
  have h0 := hcounts (jobs.filter (fun j => j.status ∈ statuses.getD ["PENDING", "RUNNING"]))
    (jobs, items, { total_jobs := (jobs.filter (fun j => j.status ∈ statuses.getD ["PENDING", "RUNNING"])).length })
  have hsucc : ((jobs.filter (fun j => j.status ∈ statuses.getD ["PENDING", "RUNNING"])).foldl
      (checkJobStep drive fname getJob)
      (jobs, items, { total_jobs := (jobs.filter (fun j => j.status ∈ statuses.getD ["PENDING", "RUNNING"])).length })).2.2.images_succeeded = 0 :=
    congrArg (fun p => p.2.1) h0
  have hfail : ((jobs.filter (fun j => j.status ∈ statuses.getD ["PENDING", "RUNNING"])).foldl
      (checkJobStep drive fname getJob)
      (jobs, items, { total_jobs := (jobs.filter (fun j => j.status ∈ statuses.getD ["PENDING", "RUNNING"])).length })).2.2.images_failed = 0 :=
    congrArg (fun p => p.2.2.1) h0
  have hpend : ((jobs.filter (fun j => j.status ∈ statuses.getD ["PENDING", "RUNNING"])).foldl
      (checkJobStep drive fname getJob)
      (jobs, items, { total_jobs := (jobs.filter (fun j => j.status ∈ statuses.getD ["PENDING", "RUNNING"])).length })).2.2.images_pending = 0 :=
    congrArg (fun p => p.2.2.2) h0
  rw [hsucc, hfail, hpend]
  exact ⟨rfl, by omega, by omega, by omega⟩

/-! ## C10: update_image_result -/

/-- C10 counterexample: the claim says a non-null result_file together
with a non-null error_message ends with status FAILED.  With the
non-null but empty error message `""` the Python truthiness test
`if error_message:` skips the error branch and the Item ends SUCCEEDED. -/
theorem C10_empty_error_message_not_failed :
    (update_image_result [exItem1] "k1" (some "rf") (some "")).map
      (fun i => (i.status, i.result_file, i.error_message)) =
      [("SUCCEEDED", some "rf", none)] := by
  decide

/-- C10 amended: for a Python-truthy (non-null, non-empty) result_file
and error_message on an existing request key, the Item ends FAILED with
both fields written (the error branch overwrites the SUCCEEDED
assignment); when the request key matches no Item the call leaves the
table unchanged and raises nothing. -/
theorem C10_error_branch_overwrites
    (items items' : List BatchJobImage) (key key' rf em : String)
    (rf' em' : Option String) (img : BatchJobImage)
    (hrf : rf ≠ "") (hem : em ≠ "")
    (hfind : findItemByKey items key = some img)
    (hmiss : findItemByKey items' key' = none) :
    update_image_result items key (some rf) (some em) =
      setItem items { img with result_file := some rf, error_message := some em, status := "FAILED" } ∧
    update_image_result items' key' rf' em' = items' := by
  constructor
  · have h1 : strTruthy (some rf) = true := by simp [strTruthy, hrf]
    have h2 : strTruthy (some em) = true := by simp [strTruthy, hem]
    simp only [update_image_result, hfind, h1, h2, if_true]
  · simp [update_image_result, hmiss]

/-- Closed instance of C10 at a single pending item and a missing key. -/
theorem C10_error_branch_overwrites_witness :
    update_image_result [exItem1] "k1" (some "rf") (some "em") =
      setItem [exItem1] { exItem1 with result_file := some "rf", error_message := some "em", status := "FAILED" } ∧
    update_image_result [exItem1] "zz" (some "rf") (some "em") = [exItem1] :=
  C10_error_branch_overwrites [exItem1] [exItem1] "k1" "zz" "rf" "em"
    (some "rf") (some "em") exItem1 (by decide) (by decide) (by decide) (by decide)

end ImageGen
